import Mathlib

/-!
Verification development for the Tantra agent framework
(`src/tantra/tools.py`, `src/tantra/agent.py`, `src/tantra/memory.py`,
`src/tantra/models/parameter_store.py`).

The Python source is shallowly embedded: Python dictionaries become
insertion-ordered association lists, Python `Optional` becomes `Option`,
exceptions raised by tool callables become `Except`, and the external LLM
backend (`provider.create_completion`) becomes a function from the call
index to a response record.  Wall-clock timestamps (`datetime.now()`) and
the floating-point `temperature` field are irrelevant to every property
proved here and are omitted from the state.
-/

/-- A Python value as it flows through tool results and parameters.
Covers the cases `format_tool_result` dispatches on: `dict`, `list`,
`str`, and "anything else" (int, bool, None). -/
inductive PyVal where
  | pstr (s : String)
  | pint (n : Int)
  | pbool (b : Bool)
  | pnone
  | pobj (fields : List (String × PyVal))
  | parr (items : List PyVal)

/-- JSON string escaping used when serializing (models the escaping done
by Python `json.dumps` for the characters that can occur here). -/
def json_escape_char (c : Char) : String :=
  if c = '"' then "\\\""
  else if c = '\\' then "\\\\"
  else if c = '\n' then "\\n"
  else String.singleton c

def json_escape (s : String) : String :=
  String.join (s.toList.map json_escape_char)

def json_quote (s : String) : String :=
  "\"" ++ json_escape s ++ "\""

mutual
/-- Models Python `json.dumps` on embedded values (the `indent=2,
default=str` pretty form used by `format_tool_result` is abstracted to
this canonical serialization; no claim depends on whitespace layout). -/
def json_dumps : PyVal → String
  | .pstr s => json_quote s
  | .pint n => toString n
  | .pbool b => cond b "true" "false"
  | .pnone => "null"
  | .pobj fields => "\x7b" ++ json_dumps_fields fields ++ "\x7d"
  | .parr items => "[" ++ json_dumps_items items ++ "]"

def json_dumps_fields : List (String × PyVal) → String
  | [] => ""
  | [(k, v)] => json_quote k ++ ": " ++ json_dumps v
  | (k, v) :: rest => json_quote k ++ ": " ++ json_dumps v ++ ", " ++ json_dumps_fields rest

def json_dumps_items : List PyVal → String
  | [] => ""
  | [v] => json_dumps v
  | v :: rest => json_dumps v ++ ", " ++ json_dumps_items rest
end

/-- Models Python `str()` on embedded values. -/
def py_str : PyVal → String
  | .pstr s => s
  | .pint n => toString n
  | .pbool b => cond b "True" "False"
  | .pnone => "None"
  | v => json_dumps v

/-- Python `dict` assignment `d[k] = v`: replaces in place if the key is
present, else appends (insertion order preserved). -/
def dict_set {α : Type} (d : List (String × α)) (k : String) (v : α) : List (String × α) :=
  if d.any (fun p => p.1 == k) then
    d.map (fun p => if p.1 == k then (k, v) else p)
  else
    d ++ [(k, v)]

/-- Python `d.get(k)` / `k in d` lookup. -/
def dict_get {α : Type} (d : List (String × α)) (k : String) : Option α :=
  (d.find? (fun p => p.1 == k)).map (fun p => p.2)

/-- Python `s.split(c)` at the character level. -/
def py_split_on_char (c : Char) : List Char → List (List Char)
  | [] => [[]]
  | x :: xs =>
    let r := py_split_on_char c xs
    if x = c then [] :: r
    else
      match r with
      | h :: t => (x :: h) :: t
      | [] => [[x]]

/-- Python `s.split('\n')` (the `docstring.split('\n')` calls). -/
def py_split_lines (s : String) : List String :=
  (py_split_on_char '\n' s.toList).map List.asString

/-- Python `s.strip()`. -/
def py_strip (s : String) : String :=
  (((s.toList.dropWhile Char.isWhitespace).reverse.dropWhile Char.isWhitespace).reverse).asString

/-- Python `s.lower()`. -/
def py_lower (s : String) : String :=
  (s.toList.map Char.toLower).asString

/-- Python `s.startswith(pre)`. -/
def py_startswith (s pre : String) : Bool :=
  pre.toList.isPrefixOf s.toList

/-- Python `c in s` for a single character. -/
def py_contains_char (s : String) (c : Char) : Bool :=
  s.toList.contains c

/-! ## src/tantra/tools.py -/

/-- A registered tool callable.  Python sync and async callables are both
awaited to a value by `execute_tool`; a raised exception is `Except.error`
carrying `str(e)`. -/
def ToolFn : Type := List (String × PyVal) → Except String PyVal

/-- The `ToolExecutionResult` TypedDict from `src/tantra/types.py`. -/
structure ToolExecutionResult where
  success : Bool
  result : Option PyVal
  error : Option String

/-- `execute_tool` (src/tantra/tools.py lines 187-234). -/
def execute_tool (tool_name : String) (tool_args : List (String × PyVal))
    (tool_map : List (String × ToolFn)) : ToolExecutionResult :=
  match dict_get tool_map tool_name with
  | none =>
      { success := false, result := none, error := some ("Unknown tool: " ++ tool_name) }
  | some func =>
      match func tool_args with
      | .ok result => { success := true, result := some result, error := none }
      | .error e => { success := false, result := none, error := some e }

/-- `format_tool_result` (src/tantra/tools.py lines 237-261).
`max_length = none` models the Python call `max_length=None`. -/
def format_tool_result (result : PyVal) (max_length : Option Nat) : String :=
  let formatted := match result with
    | .pobj fields => json_dumps (.pobj fields)
    | .parr items => json_dumps (.parr items)
    | .pstr s => s
    | other => py_str other
  match max_length with
  | some m =>
      if formatted.length > m then
        formatted.take m ++
          "\n\n... [TRUNCATED - Original length: " ++ toString formatted.length ++
          " chars, showing first " ++ toString m ++ " chars]"
      else formatted
  | none => formatted

/-- Python `stripped.split(':', 1)` on a string known to contain a colon. -/
def split_colon (s : String) : String × String :=
  ((s.toList.takeWhile (fun c => c ≠ ':')).asString,
   ((s.toList.dropWhile (fun c => c ≠ ':')).drop 1).asString)

/-- The per-line loop of `_parse_docstring_params`
(src/tantra/tools.py lines 92-131).  A Python `break` returns the
accumulated dictionary immediately.  The `param_docs[current_param] += ...`
update is a dictionary update at an existing key. -/
def parse_docstring_lines (in_args_section : Bool) (current_param : Option String)
    (param_docs : List (String × String)) : List String → List (String × String)
  | [] => param_docs
  | line :: rest =>
    let stripped := py_strip line
    if py_lower stripped = "args:" ∨ py_lower stripped = "arguments:" ∨
        py_lower stripped = "parameters:" then
      parse_docstring_lines true current_param param_docs rest
    else if in_args_section then
      -- End of args section ("break")
      if stripped ≠ "" ∧ ¬ py_startswith stripped " " ∧ ¬ py_contains_char stripped ':' then
        param_docs
      -- New parameter line
      else if py_contains_char stripped ':' ∧ ¬ py_startswith stripped " " then
        let pr := split_colon stripped
        let param_name := py_strip pr.1
        let description := py_strip pr.2
        parse_docstring_lines true (some param_name)
          (dict_set param_docs param_name description) rest
      -- Continuation of previous parameter description
      else
        match current_param with
        | some cp =>
            if stripped ≠ "" then
              parse_docstring_lines true current_param
                (param_docs.map (fun p => if p.1 == cp then (p.1, p.2 ++ " " ++ stripped) else p))
                rest
            else
              parse_docstring_lines true current_param param_docs rest
        | none => parse_docstring_lines true current_param param_docs rest
    else
      parse_docstring_lines false current_param param_docs rest

/-- `_parse_docstring_params` (src/tantra/tools.py lines 92-131). -/
def parse_docstring_params (docstring : String) : List (String × String) :=
  parse_docstring_lines false none [] (py_split_lines docstring)

/-- Python type hints, as far as `_python_type_to_json_schema` inspects
them (src/tantra/tools.py lines 134-184). -/
inductive PyType where
  | tstr | tint | tfloat | tbool | tdict | tlist
  | toptional (inner : PyType)
  | tlist_of (item : PyType)
  | tdict_of
  | tother

/-- A JSON-schema fragment for one parameter (the dictionaries built by
`_python_type_to_json_schema`, plus the `description` key added later). -/
inductive JSchema where
  | mk (ty : String) (items : Option JSchema) (nullable : Bool) (descr : Option String)

def JSchema.ty : JSchema → String
  | .mk t _ _ _ => t

def JSchema.nullable : JSchema → Bool
  | .mk _ _ n _ => n

def JSchema.with_nullable : JSchema → JSchema
  | .mk t i _ d => .mk t i true d

def JSchema.with_descr (descr : String) : JSchema → JSchema
  | .mk t i n _ => .mk t i n (some descr)

/-- `_python_type_to_json_schema` (src/tantra/tools.py lines 134-184). -/
def python_type_to_json_schema : PyType → JSchema
  | .tstr => .mk "string" none false none
  | .tint => .mk "integer" none false none
  | .tfloat => .mk "number" none false none
  | .tbool => .mk "boolean" none false none
  | .tdict => .mk "object" none false none
  | .tlist => .mk "array" (some (.mk "string" none false none)) false none
  | .toptional inner => (python_type_to_json_schema inner).with_nullable
  | .tlist_of item => .mk "array" (some (python_type_to_json_schema item)) false none
  | .tdict_of => .mk "object" none false none
  | .tother => .mk "string" none false none

/-- One parameter of a Python callable as `inspect.signature` and
`get_type_hints` expose it: its name, its resolved type hint (if any),
and whether it has a default value. -/
structure PyParam where
  name : String
  hint : Option PyType
  has_default : Bool

/-- A Python callable's reflectable surface: `__name__`, its signature's
parameters in declared order, and `inspect.getdoc` (empty string for no
docstring, matching `doc = inspect.getdoc(func) or ""`). -/
structure PyFunc where
  name : String
  params : List PyParam
  doc : String

/-- The `function` part of a generated tool schema. -/
structure FunctionSchema where
  name : String
  description : String
  properties : List (String × JSchema)
  required : List String

/-- The parameter loop of `generate_tool_schema` (src/tantra/tools.py
lines 65-80): builds `properties` and `required` in declared order,
skipping `self` and `cls`. -/
def build_parameters (param_docs : List (String × String)) :
    List PyParam → List (String × JSchema) × List String
  | [] => ([], [])
  | p :: rest =>
    let tail := build_parameters param_docs rest
    if p.name = "self" ∨ p.name = "cls" then tail
    else
      let base := python_type_to_json_schema (p.hint.getD .tstr)
      let param_schema := match dict_get param_docs p.name with
        | some d => base.with_descr d
        | none => base
      ((p.name, param_schema) :: tail.1,
       if p.has_default then tail.2 else p.name :: tail.2)

/-- `generate_tool_schema` (src/tantra/tools.py lines 13-89). -/
def generate_tool_schema (func : PyFunc) (name : Option String)
    (description : Option String) : FunctionSchema :=
  let func_name := match name with
    | some n => n
    | none => func.name
  let func_description := match description with
    | some d => py_strip ((py_split_lines d).headD "")
    | none =>
        if func.doc ≠ "" then py_strip ((py_split_lines func.doc).headD "")
        else "Execute " ++ func_name
  let param_docs := parse_docstring_params func.doc
  let built := build_parameters param_docs func.params
  { name := func_name
    description := func_description
    properties := built.1
    required := built.2 }

/-! ## src/tantra/agent.py -/

/-- The usage accumulator (`Agent.total_usage`;
src/tantra/agent.py lines 96-101). -/
structure Usage where
  prompt_tokens : Nat
  completion_tokens : Nat
  total_tokens : Nat
deriving DecidableEq

def add_usage (a b : Usage) : Usage :=
  { prompt_tokens := a.prompt_tokens + b.prompt_tokens
    completion_tokens := a.completion_tokens + b.completion_tokens
    total_tokens := a.total_tokens + b.total_tokens }

/-- Componentwise order on usage accumulators. -/
def usage_le (a b : Usage) : Prop :=
  a.prompt_tokens ≤ b.prompt_tokens ∧
  a.completion_tokens ≤ b.completion_tokens ∧
  a.total_tokens ≤ b.total_tokens

/-- A tool call requested by the backend (the `ToolCall` wire shape
`{id, type, function: {name, arguments}}`, flattened). -/
structure ToolCallRec where
  id : String
  ctype : String
  name : String
  arguments : String
deriving DecidableEq

/-- A transcript message (the `Message` dicts appended to
`Agent.messages`).  An assistant entry's `tool_calls` list is empty when
the key is absent; content `none` models an absent `content` key. -/
inductive Message where
  | system (content : String)
  | user (content : String)
  | assistant (content : Option String) (tool_calls : List ToolCallRec)
  | tool (tool_call_id : String) (name : String) (content : String)
deriving DecidableEq

/-- The `tool_call_id` field of a tool-role message, if any. -/
def Message.tc_id : Message → Option String
  | .tool i _ _ => some i
  | _ => none

/-- One entry of the `tool_calls_made` record built during `run`
(src/tantra/agent.py lines 283-290). -/
structure MadeCall where
  tool : String
  arguments : List (String × PyVal)
  success : Bool
  error : Option String

/-- The standardized backend response consumed by `_call_openai`
(`{message: {content, tool_calls}, finish_reason, usage}`). -/
structure BackendResponse where
  content : Option String
  tool_calls : List ToolCallRec
  finish_reason : String
  usage : Option Usage

/-- The external backend: `provider.create_completion` modelled as a
function from the 0-based index of the call to its response. -/
def Backend : Type := Nat → BackendResponse

/-- Python `json.loads` on a tool call's raw `arguments` payload,
modelled abstractly: `none` is a `json.JSONDecodeError`. -/
def ArgParser : Type := String → Option (List (String × PyVal))

/-- The `AgentResponse` dict returned by `Agent.run`. -/
structure AgentResponse where
  success : Bool
  content : Option String
  messages : List Message
  tool_calls : List MadeCall
  iterations : Nat
  usage : Usage
  error : Option String

/-- The mutable state of one `Agent` instance (src/tantra/agent.py
lines 46-101).  `tool_map` is the registry built at construction;
the float `temperature` and the shared provider handle carry no state
the claims depend on and are omitted. -/
structure Agent where
  name : String
  system_message : String
  model : String
  max_tokens : Option Nat
  max_iterations : Nat
  tool_choice : String
  truncate_tool_results : Bool
  tool_map : List (String × ToolFn)
  messages : List Message
  total_usage : Usage

/-- `Agent.__init__`: fresh transcript and zeroed usage counters
(src/tantra/agent.py lines 93-101). -/
def Agent.init (name system_message model : String) (max_tokens : Option Nat)
    (max_iterations : Nat) (tool_choice : String) (truncate_tool_results : Bool)
    (tool_map : List (String × ToolFn)) : Agent :=
  { name := name
    system_message := system_message
    model := model
    max_tokens := max_tokens
    max_iterations := max_iterations
    tool_choice := tool_choice
    truncate_tool_results := truncate_tool_results
    tool_map := tool_map
    messages := []
    total_usage := { prompt_tokens := 0, completion_tokens := 0, total_tokens := 0 } }

/-- The usage-tracking step of `_call_openai` (src/tantra/agent.py
lines 213-217): if the response reports usage, each counter is
incremented by the reported amount. -/
def track_usage (st : Agent) (resp : BackendResponse) : Agent :=
  match resp.usage with
  | some u => { st with total_usage := add_usage st.total_usage u }
  | none => st

/-- `_message_to_dict` on the assistant message (src/tantra/agent.py
lines 311-332): the `content` key is set only for truthy content, the
`tool_calls` key only for a non-empty list. -/
def assistant_message_of (resp : BackendResponse) : Message :=
  Message.assistant
    (match resp.content with
     | some s => if s = "" then none else some s
     | none => none)
    resp.tool_calls

/-- The `(tool_call, tool_name, tool_args, result)` tuple returned by
`execute_single_tool` inside `_execute_tool_calls`
(src/tantra/agent.py lines 260-277). -/
structure SingleRes where
  tool_call : ToolCallRec
  tool_name : String
  tool_args : List (String × PyVal)
  result : ToolExecutionResult

/-- `execute_single_tool` (src/tantra/agent.py lines 260-277): parse the
raw JSON arguments, falling back to `{}` on a decode error, then
dispatch through `execute_tool`. -/
def execute_single_tool (parse : ArgParser) (tool_map : List (String × ToolFn))
    (tc : ToolCallRec) : SingleRes :=
  let tool_args := (parse tc.arguments).getD []
  { tool_call := tc
    tool_name := tc.name
    tool_args := tool_args
    result := execute_tool tc.name tool_args tool_map }

/-- Placeholder for a completion that a (malformed, non-permutation)
schedule never delivers; unreachable when the schedule is a permutation
of the request indices. -/
def lost_result : SingleRes :=
  { tool_call := { id := "", ctype := "", name := "", arguments := "" }
    tool_name := ""
    tool_args := []
    result := { success := false, result := none, error := some "lost" } }

/-- `asyncio.gather` semantics (src/tantra/agent.py line 280): the `n`
tasks complete in the arbitrary order `order`, but the gathered list is
indexed by request order — position `i` holds task `i`'s result no
matter when it completed. -/
def gather_order (n : Nat) (exec : Nat → SingleRes) (order : List Nat) : List SingleRes :=
  let completions := order.map (fun i => (i, exec i))
  (List.range n).map (fun i =>
    match completions.find? (fun p => p.1 == i) with
    | some p => p.2
    | none => lost_result)

/-- The tool message appended to the transcript for one result
(src/tantra/agent.py lines 292-309). -/
def tool_message_of (truncate : Bool) (r : SingleRes) : Message :=
  let content :=
    if r.result.success then
      if truncate then format_tool_result (r.result.result.getD .pnone) (some 50000)
      else format_tool_result (r.result.result.getD .pnone) none
    else
      json_dumps (.pobj [("error", .pstr (r.result.error.getD ""))])
  Message.tool r.tool_call.id r.tool_name content

/-- The `tool_calls_made` record entry for one result
(src/tantra/agent.py lines 285-290). -/
def made_call_of (r : SingleRes) : MadeCall :=
  { tool := r.tool_name
    arguments := r.tool_args
    success := r.result.success
    error := r.result.error }

/-- `_execute_tool_calls` (src/tantra/agent.py lines 250-309): fan out
all requested calls (completing in schedule order `order`), gather back
to request order, then process the results sequentially, appending one
record and one tool message per result in request order. -/
def Agent.execute_tool_calls (parse : ArgParser) (order : List Nat) (st : Agent)
    (tool_calls : List ToolCallRec) (made : List MadeCall) : Agent × List MadeCall :=
  let dflt : ToolCallRec := { id := "", ctype := "", name := "", arguments := "" }
  let results := gather_order tool_calls.length
    (fun i => execute_single_tool parse st.tool_map (tool_calls.getD i dflt)) order
  ({ st with messages := st.messages ++ results.map (tool_message_of st.truncate_tool_results) },
   made ++ results.map made_call_of)

/-- The response returned when the iteration budget is exhausted
(src/tantra/agent.py lines 176-186). -/
def max_iter_response (st : Agent) (made : List MadeCall) (iteration : Nat) : AgentResponse :=
  { success := false
    content := none
    messages := st.messages
    tool_calls := made
    iterations := iteration
    usage := st.total_usage
    error := some ("Max iterations (" ++ toString st.max_iterations ++ ") reached") }

/-- The `while iteration < self.max_iterations` loop of `Agent.run`
(src/tantra/agent.py lines 143-186), with `fuel = max_iterations -
iteration` remaining iterations.  `order iteration` is the completion
schedule of that turn's concurrent tool executions. -/
def Agent.run_loop (bk : Backend) (parse : ArgParser) (order : Nat → List Nat) :
    Nat → Agent → List MadeCall → Nat → AgentResponse × Agent
  | 0, st, made, iteration => (max_iter_response st made iteration, st)
  | fuel + 1, st, made, iteration =>
    let resp := bk iteration
    let st1 := track_usage st resp
    let st2 := { st1 with messages := st1.messages ++ [assistant_message_of resp] }
    if resp.finish_reason = "stop" ∨ resp.tool_calls = [] then
      ({ success := true
         content := resp.content
         messages := st2.messages
         tool_calls := made
         iterations := iteration + 1
         usage := st2.total_usage
         error := none }, st2)
    else
      let pr := Agent.execute_tool_calls parse (order iteration) st2 resp.tool_calls made
      Agent.run_loop bk parse order fuel pr.1 pr.2 (iteration + 1)

/-- `Agent.run` (src/tantra/agent.py lines 119-198): seed the transcript
with the system directive and the task, then iterate.  The backend is
total here, so the `except` fallback (DONE_ERROR) is unreachable and the
normal and max-iteration exits are the only outcomes. -/
def Agent.run (bk : Backend) (parse : ArgParser) (order : Nat → List Nat)
    (st : Agent) (task : String) : AgentResponse × Agent :=
  let st0 := { st with
    messages := [Message.system st.system_message, Message.user task] }
  Agent.run_loop bk parse order st0.max_iterations st0 [] 0

/-- `Agent.reset` (src/tantra/agent.py lines 334-337). -/
def Agent.reset (st : Agent) : Agent :=
  { st with messages := [] }

/-- `Agent.add_user_message` (src/tantra/agent.py lines 343-345). -/
def Agent.add_user_message (st : Agent) (content : String) : Agent :=
  { st with messages := st.messages ++ [Message.user content] }

/-- `Agent.fork` (src/tantra/agent.py lines 354-395): construct a fresh
agent with the same configuration (hence zeroed usage), then install a
structurally independent copy of the parent's messages and tool map. -/
def Agent.fork (st : Agent) : Agent :=
  let forked := Agent.init (st.name ++ "_fork") st.system_message st.model
    st.max_tokens st.max_iterations st.tool_choice st.truncate_tool_results st.tool_map
  { forked with messages := st.messages, tool_map := st.tool_map }

/-- The operations a caller can perform on one `Agent` instance during
its lifetime (used to state the lifetime usage invariant). -/
inductive AgentOp where
  | op_reset
  | op_add_user_message (content : String)
  | op_backend_call (resp : BackendResponse)
  | op_run (bk : Backend) (parse : ArgParser) (order : Nat → List Nat) (task : String)

def apply_op (st : Agent) : AgentOp → Agent
  | .op_reset => st.reset
  | .op_add_user_message c => st.add_user_message c
  | .op_backend_call resp => track_usage st resp
  | .op_run bk parse order task => (Agent.run bk parse order st task).2

def apply_ops (st : Agent) (ops : List AgentOp) : Agent :=
  ops.foldl apply_op st

/-! ## src/tantra/models/parameter_store.py and src/tantra/memory.py -/

/-- `ToolParameter` (src/tantra/models/parameter_store.py lines 5-8);
the `collected_at` timestamp is omitted. -/
structure ToolParameter where
  name : String
  value : PyVal

/-- `ToolParameterStore` (src/tantra/models/parameter_store.py
lines 10-32); the `started_at` timestamp is omitted. -/
structure ToolParameterStore where
  tool_name : String
  parameters : List (String × ToolParameter)

def ToolParameterStore.add_parameter (ps : ToolParameterStore)
    (name : String) (value : PyVal) : ToolParameterStore :=
  { ps with parameters := dict_set ps.parameters name { name := name, value := value } }

def ToolParameterStore.get_parameter (ps : ToolParameterStore) (name : String) : Option PyVal :=
  (dict_get ps.parameters name).map (fun p => p.value)

def ToolParameterStore.has_parameter (ps : ToolParameterStore) (name : String) : Bool :=
  (dict_get ps.parameters name).isSome

def ToolParameterStore.get_all_parameters (ps : ToolParameterStore) : List (String × PyVal) :=
  ps.parameters.map (fun p => (p.1, p.2.value))

/-- `Memory` (src/tantra/memory.py lines 7-124); message history is kept
as (role, content) pairs and the `last_accessed` timestamp map is
omitted. -/
structure Memory where
  messages : List (String × String)
  facts : List (String × String)
  parameter_store : Option ToolParameterStore

def Memory.empty : Memory :=
  { messages := [], facts := [], parameter_store := none }

def Memory.add_message (m : Memory) (role content : String) : Memory :=
  { m with messages := m.messages ++ [(role, content)] }

def Memory.add_fact (m : Memory) (key value : String) : Memory :=
  { m with facts := dict_set m.facts key value }

def Memory.get_fact (m : Memory) (key : String) : Option String :=
  dict_get m.facts key

/-- `Memory.start_collecting_params` (src/tantra/memory.py lines 46-51). -/
def Memory.start_collecting_params (m : Memory) (tool_name : String) : Memory :=
  ({ m with parameter_store := some { tool_name := tool_name, parameters := [] } }).add_fact
    "current_tool" tool_name

/-- `Memory.add_param` (src/tantra/memory.py lines 53-61). -/
def Memory.add_param (m : Memory) (tool_name param_name : String) (value : PyVal) : Memory :=
  let m :=
    if (match m.parameter_store with
        | none => true
        | some ps => ps.tool_name != tool_name) then
      m.start_collecting_params tool_name
    else m
  match m.parameter_store with
  | some ps =>
      ({ m with parameter_store := some (ps.add_parameter param_name value) }).add_fact
        (tool_name ++ "_" ++ param_name) (py_str value)
  | none => m

/-- `Memory.get_collected_params` (src/tantra/memory.py lines 63-71). -/
def Memory.get_collected_params (m : Memory) (tool_name : String) : List (String × PyVal) :=
  match m.parameter_store with
  | some ps => if ps.tool_name = tool_name then ps.get_all_parameters else []
  | none => []

/-- `Memory.clear_collected_params` (src/tantra/memory.py lines 73-83):
destroy the session, then (if the `current_tool` fact matches) drop every
fact whose key starts with the tool name and pop `current_tool`. -/
def Memory.clear_collected_params (m : Memory) (tool_name : String) : Memory :=
  match m.parameter_store with
  | some ps =>
      if ps.tool_name = tool_name then
        let m1 := { m with parameter_store := none }
        match m1.get_fact "current_tool" with
        | some current_tool =>
            if current_tool = tool_name then
              let m2 := { m1 with
                facts := m1.facts.filter (fun p => !(py_startswith p.1 tool_name)) }
              { m2 with facts := m2.facts.filter (fun p => p.1 != "current_tool") }
            else m1
        | none => m1
      else m
  | none => m

/-! ## Helper lemmas -/

theorem usage_le_refl (u : Usage) : usage_le u u :=
  ⟨Nat.le_refl _, Nat.le_refl _, Nat.le_refl _⟩

theorem usage_le_trans {a b c : Usage} (h1 : usage_le a b) (h2 : usage_le b c) :
    usage_le a c :=
  ⟨Nat.le_trans h1.1 h2.1, Nat.le_trans h1.2.1 h2.2.1, Nat.le_trans h1.2.2 h2.2.2⟩

theorem usage_le_add (a b : Usage) : usage_le a (add_usage a b) :=
  ⟨Nat.le_add_right _ _, Nat.le_add_right _ _, Nat.le_add_right _ _⟩

/-- The three counters after the usage-tracking step of `_call_openai`. -/
def step_usage (u : Usage) : Option Usage → Usage
  | some v => add_usage u v
  | none => u

/-- Accumulated usage over a sequence of backend-reported usages. -/
def accum_usage (u : Usage) : List (Option Usage) → Usage
  | [] => u
  | x :: rest => accum_usage (step_usage u x) rest

@[simp] theorem track_usage_total (st : Agent) (resp : BackendResponse) :
    (track_usage st resp).total_usage = step_usage st.total_usage resp.usage := by
  cases h : resp.usage <;> simp [track_usage, step_usage, h]

@[simp] theorem track_usage_messages (st : Agent) (resp : BackendResponse) :
    (track_usage st resp).messages = st.messages := by
  cases h : resp.usage <;> simp [track_usage, h]

@[simp] theorem track_usage_max_iterations (st : Agent) (resp : BackendResponse) :
    (track_usage st resp).max_iterations = st.max_iterations := by
  cases h : resp.usage <;> simp [track_usage, h]

@[simp] theorem track_usage_tool_map (st : Agent) (resp : BackendResponse) :
    (track_usage st resp).tool_map = st.tool_map := by
  cases h : resp.usage <;> simp [track_usage, h]

@[simp] theorem gather_order_length (n : Nat) (exec : Nat → SingleRes) (order : List Nat) :
    (gather_order n exec order).length = n := by
  simp [gather_order]

theorem find?_indexed_map (exec : Nat → SingleRes) (i : Nat) :
    ∀ (order : List Nat), i ∈ order →
      (order.map (fun j => (j, exec j))).find? (fun p => p.1 == i) = some (i, exec i) := by
  intro order
  induction order with
  | nil => intro h; cases h
  | cons j rest ih =>
      intro h
      by_cases hji : j = i
      · subst hji
        simp [List.find?]
      · have : i ∈ rest := by
          cases h with
          | head => exact absurd rfl hji
          | tail _ h' => exact h'
        simp only [List.map_cons, List.find?]
        have : (j == i) = false := by simp [hji]
        simp [this, ih ‹i ∈ rest›]

/-- `asyncio.gather` with a permuted completion order delivers the same
request-ordered result list. -/
theorem gather_order_perm (n : Nat) (exec : Nat → SingleRes) (order : List Nat)
    (h : order.Perm (List.range n)) :
    gather_order n exec order = (List.range n).map exec := by
  unfold gather_order
  apply List.map_congr_left
  intro i hi
  have hmem : i ∈ order := h.mem_iff.mpr hi
  rw [find?_indexed_map exec i order hmem]

theorem map_range_getD {α β : Type} (d : α) (f : α → β) :
    ∀ (l : List α),
      (List.range l.length).map (fun i => f (l.getD i d)) = l.map f := by
  intro l
  induction l with
  | nil => simp
  | cons a t ih =>
      simp only [List.length_cons, List.range_succ_eq_map, List.map_cons, List.map_map]
      congr 1

/-- The request-ordered results of one turn's tool executions. -/
def request_order_results (parse : ArgParser) (tool_map : List (String × ToolFn))
    (tool_calls : List ToolCallRec) : List SingleRes :=
  tool_calls.map (execute_single_tool parse tool_map)

/-- With a completion schedule that is a permutation of the request
indices, the fan-out/fan-in step appends exactly one record and one tool
message per requested call, in request order. -/
theorem execute_tool_calls_perm (parse : ArgParser) (st : Agent)
    (tool_calls : List ToolCallRec) (made : List MadeCall) (order : List Nat)
    (h : order.Perm (List.range tool_calls.length)) :
    (Agent.execute_tool_calls parse order st tool_calls made).1.messages =
      st.messages ++ (request_order_results parse st.tool_map tool_calls).map
        (tool_message_of st.truncate_tool_results) ∧
    (Agent.execute_tool_calls parse order st tool_calls made).2 =
      made ++ (request_order_results parse st.tool_map tool_calls).map made_call_of := by
  simp only [Agent.execute_tool_calls, request_order_results]
  rw [gather_order_perm _ _ _ h, map_range_getD]
  exact ⟨rfl, rfl⟩

@[simp] theorem execute_tool_calls_fst_messages_length (parse : ArgParser)
    (order : List Nat) (st : Agent) (tool_calls : List ToolCallRec) (made : List MadeCall) :
    (Agent.execute_tool_calls parse order st tool_calls made).1.messages.length =
      st.messages.length + tool_calls.length := by
  simp [Agent.execute_tool_calls]

@[simp] theorem execute_tool_calls_snd_length (parse : ArgParser)
    (order : List Nat) (st : Agent) (tool_calls : List ToolCallRec) (made : List MadeCall) :
    (Agent.execute_tool_calls parse order st tool_calls made).2.length =
      made.length + tool_calls.length := by
  simp [Agent.execute_tool_calls]

@[simp] theorem execute_tool_calls_fst_max_iterations (parse : ArgParser)
    (order : List Nat) (st : Agent) (tool_calls : List ToolCallRec) (made : List MadeCall) :
    (Agent.execute_tool_calls parse order st tool_calls made).1.max_iterations =
      st.max_iterations := by
  simp [Agent.execute_tool_calls]

@[simp] theorem execute_tool_calls_fst_total_usage (parse : ArgParser)
    (order : List Nat) (st : Agent) (tool_calls : List ToolCallRec) (made : List MadeCall) :
    (Agent.execute_tool_calls parse order st tool_calls made).1.total_usage =
      st.total_usage := by
  simp [Agent.execute_tool_calls]

/-! ## Claims -/

/-- C4: `execute_tool` never raises a fault to its caller: an
unregistered name yields `success=false` with error `"Unknown tool:
<name>"` without invoking anything; a registered callable that raises is
converted to `success=false` with the fault description; a normal return
yields `success=true` with the value and no error. -/
theorem execute_tool_never_raises :
    (∀ (tool_name : String) (tool_args : List (String × PyVal))
        (tool_map : List (String × ToolFn)),
        dict_get tool_map tool_name = none →
        execute_tool tool_name tool_args tool_map =
          { success := false, result := none,
            error := some ("Unknown tool: " ++ tool_name) }) ∧
    (∀ (tool_name : String) (tool_args : List (String × PyVal))
        (tool_map : List (String × ToolFn)) (func : ToolFn) (e : String),
        dict_get tool_map tool_name = some func → func tool_args = .error e →
        execute_tool tool_name tool_args tool_map =
          { success := false, result := none, error := some e }) ∧
    (∀ (tool_name : String) (tool_args : List (String × PyVal))
        (tool_map : List (String × ToolFn)) (func : ToolFn) (v : PyVal),
        dict_get tool_map tool_name = some func → func tool_args = .ok v →
        execute_tool tool_name tool_args tool_map =
          { success := true, result := some v, error := none }) := by
  refine ⟨?_, ?_, ?_⟩
  · intro tool_name tool_args tool_map h
    simp [execute_tool, h]
  · intro tool_name tool_args tool_map func e h hf
    simp [execute_tool, h, hf]
  · intro tool_name tool_args tool_map func v h hf
    simp [execute_tool, h, hf]

def raising_tool : ToolFn := fun _ => .error "boom"

def ok_tool : ToolFn := fun _ => .ok (.pstr "hi")

def demo_tool_map : List (String × ToolFn) :=
  [("raising", raising_tool), ("fine", ok_tool)]

/-- Witness for C4 at a concrete registry. -/
theorem execute_tool_never_raises_witness :
    execute_tool "absent" [] demo_tool_map =
      { success := false, result := none, error := some "Unknown tool: absent" } ∧
    execute_tool "raising" [] demo_tool_map =
      { success := false, result := none, error := some "boom" } ∧
    execute_tool "fine" [] demo_tool_map =
      { success := true, result := some (.pstr "hi"), error := none } :=
  ⟨execute_tool_never_raises.1 "absent" [] demo_tool_map rfl,
   execute_tool_never_raises.2.1 "raising" [] demo_tool_map raising_tool "boom" rfl rfl,
   execute_tool_never_raises.2.2 "fine" [] demo_tool_map ok_tool (.pstr "hi") rfl rfl⟩

/-- C5: a string tool result longer than the threshold is truncated, with
truncation enabled, to its first `m` characters followed by the marker
stating the original and shown lengths; with truncation disabled
(`max_length=None`) any string result passes through unchanged. -/
theorem format_tool_result_truncation :
    (∀ (s : String) (m : Nat), s.length > m →
        format_tool_result (.pstr s) (some m) =
          s.take m ++ "\n\n... [TRUNCATED - Original length: " ++ toString s.length ++
            " chars, showing first " ++ toString m ++ " chars]") ∧
    (∀ s : String, format_tool_result (.pstr s) none = s) := by
  constructor
  · intro s m h
    simp [format_tool_result, h]
  · intro s
    simp [format_tool_result]

/-- Witness for C5 at a concrete oversized string. -/
theorem format_tool_result_truncation_witness :
    format_tool_result (.pstr "abcdefgh") (some 5) =
      "abcde" ++ "\n\n... [TRUNCATED - Original length: 8 chars, showing first 5 chars]" ∧
    format_tool_result (.pstr "abcdefgh") none = "abcdefgh" := by
  constructor
  · have h := format_tool_result_truncation.1 "abcdefgh" 5 (by decide)
    rw [h]
    rfl
  · exact format_tool_result_truncation.2 "abcdefgh"

/-- C2: when a single assistant turn requests N tool calls, the N tool
messages appended to the transcript appear strictly in the original
request order (the k-th appended tool message carries the id of the k-th
requested call), for every completion order of the concurrently
dispatched executions. -/
theorem tool_messages_request_order (parse : ArgParser) (st : Agent)
    (tool_calls : List ToolCallRec) (made : List MadeCall) (order : List Nat)
    (hperm : order.Perm (List.range tool_calls.length)) :
    (Agent.execute_tool_calls parse order st tool_calls made).1.messages.length =
      st.messages.length + tool_calls.length ∧
    ((Agent.execute_tool_calls parse order st tool_calls made).1.messages.drop
        st.messages.length).map Message.tc_id =
      tool_calls.map (fun tc => some tc.id) := by
  have h := execute_tool_calls_perm parse st tool_calls made order hperm
  constructor
  · simp
  · rw [h.1, List.drop_left]
    simp only [request_order_results, List.map_map]
    rfl

def tc_fine : ToolCallRec :=
  { id := "call_a", ctype := "function", name := "fine", arguments := "not json" }

def tc_raising : ToolCallRec :=
  { id := "call_b", ctype := "function", name := "raising", arguments := "also not json" }

def st_demo : Agent :=
  Agent.init "Demo" "You are a demo agent." "gpt-4o" none 20 "auto" true demo_tool_map

/-- Witness for C2: two requested calls completing in reversed order
(the schedule [1, 0]) still produce tool messages in request order. -/
theorem tool_messages_request_order_witness :
    (Agent.execute_tool_calls (fun _ => none) [1, 0] st_demo [tc_fine, tc_raising] []).1.messages.length =
      st_demo.messages.length + [tc_fine, tc_raising].length ∧
    ((Agent.execute_tool_calls (fun _ => none) [1, 0] st_demo [tc_fine, tc_raising] []).1.messages.drop
        st_demo.messages.length).map Message.tc_id =
      [tc_fine, tc_raising].map (fun tc => some tc.id) :=
  tool_messages_request_order (fun _ => none) st_demo [tc_fine, tc_raising] [] [1, 0] (by decide)

theorem build_parameters_required (param_docs : List (String × String)) :
    ∀ params : List PyParam,
      (build_parameters param_docs params).2 =
        (params.filter
          (fun p => (!(p.name == "self") && !(p.name == "cls")) && !p.has_default)).map
          PyParam.name := by
  intro params
  induction params with
  | nil => rfl
  | cons p rest ih =>
      simp only [build_parameters]
      by_cases hs : p.name = "self" ∨ p.name = "cls"
      · rw [if_pos hs]
        have hfalse : ((!(p.name == "self") && !(p.name == "cls")) && !p.has_default) = false := by
          rcases hs with h | h <;> simp [h]
        simp only [List.filter_cons, hfalse]
        exact ih
      · rw [if_neg hs]
        push_neg at hs
        have h1 : (p.name == "self") = false := by simp [hs.1]
        have h2 : (p.name == "cls") = false := by simp [hs.2]
        cases hd : p.has_default
        · simp [List.filter_cons, h1, h2, hd, ih]
        · simp [List.filter_cons, h1, h2, hd, ih]

/-- C6: the required list of a derived tool schema is exactly the names
of the parameters (excluding `self` and `cls`) without a default value,
in declared order; if every parameter has a default the list is empty. -/
theorem schema_required_no_defaults (func : PyFunc) (name description : Option String) :
    (generate_tool_schema func name description).required =
      (func.params.filter
        (fun p => (!(p.name == "self") && !(p.name == "cls")) && !p.has_default)).map
        PyParam.name ∧
    ((∀ p ∈ func.params, p.has_default = true) →
      (generate_tool_schema func name description).required = []) := by
  have hreq : (generate_tool_schema func name description).required =
      (build_parameters (parse_docstring_params func.doc) func.params).2 := rfl
  constructor
  · rw [hreq, build_parameters_required]
  · intro hall
    rw [hreq, build_parameters_required]
    have hnil : func.params.filter
        (fun p => (!(p.name == "self") && !(p.name == "cls")) && !p.has_default) = [] := by
      apply List.filter_eq_nil_iff.mpr
      intro p hp
      simp [hall p hp]
    rw [hnil]
    rfl

def all_default_func : PyFunc :=
  { name := "greet"
    params := [{ name := "greeting", hint := some .tstr, has_default := true },
               { name := "times", hint := some .tint, has_default := true }]
    doc := "Greet someone." }

/-- Witness for C6 at a callable all of whose parameters have defaults. -/
theorem schema_required_no_defaults_witness :
    (generate_tool_schema all_default_func none none).required =
      (all_default_func.params.filter
        (fun p => (!(p.name == "self") && !(p.name == "cls")) && !p.has_default)).map
        PyParam.name ∧
    (generate_tool_schema all_default_func none none).required = [] :=
  ⟨(schema_required_no_defaults all_default_func none none).1,
   (schema_required_no_defaults all_default_func none none).2 (by decide)⟩

/-- C7 (code bug evaluation): on a Google-style docstring with an
indented continuation line, the parser exits the Args section at the
continuation line — `strip()` removes the indentation that the
subsequent `startswith(' ')` checks test for — so the continuation is
never space-joined onto the open parameter and the later parameter is
never parsed. -/
theorem docstring_params_section_break :
    parse_docstring_params
        "Fetch articles.\n\nArgs:\n    topic: the topic\n        with more detail\n    limit: max items" =
      [("topic", "the topic")] ∧
    parse_docstring_params
        "Fetch articles.\n\nArgs:\n    topic: the topic\n        with more detail\n    limit: max items" ≠
      [("topic", "the topic with more detail"), ("limit", "max items")] := by
  constructor <;> decide

/-- C10: a requested tool call whose raw argument payload fails to parse
as JSON is dispatched with an empty argument map — the turn neither
aborts nor raises — and any resulting failure surfaces as an ordinary
error payload in that call's tool message. -/
theorem invalid_json_empty_args (parse : ArgParser) (tool_map : List (String × ToolFn))
    (tc : ToolCallRec) (h : parse tc.arguments = none) :
    execute_single_tool parse tool_map tc =
      { tool_call := tc, tool_name := tc.name, tool_args := [],
        result := execute_tool tc.name [] tool_map } ∧
    (∀ e : String,
        execute_tool tc.name [] tool_map =
          { success := false, result := none, error := some e } →
        tool_message_of true (execute_single_tool parse tool_map tc) =
          Message.tool tc.id tc.name (json_dumps (.pobj [("error", .pstr e)]))) := by
  have h1 : execute_single_tool parse tool_map tc =
      { tool_call := tc, tool_name := tc.name, tool_args := [],
        result := execute_tool tc.name [] tool_map } := by
    simp [execute_single_tool, h]
  refine ⟨h1, ?_⟩
  intro e he
  rw [h1]
  simp [tool_message_of, he]

def tc_unknown : ToolCallRec :=
  { id := "call_c", ctype := "function", name := "absent", arguments := "\x7bbroken" }

/-- Witness for C10 at a concrete unparsable payload naming an
unregistered tool. -/
theorem invalid_json_empty_args_witness :
    execute_single_tool (fun _ => none) demo_tool_map tc_unknown =
      { tool_call := tc_unknown, tool_name := tc_unknown.name, tool_args := [],
        result := execute_tool tc_unknown.name [] demo_tool_map } ∧
    tool_message_of true (execute_single_tool (fun _ => none) demo_tool_map tc_unknown) =
      Message.tool tc_unknown.id tc_unknown.name
        (json_dumps (.pobj [("error", .pstr "Unknown tool: absent")])) :=
  have thm := invalid_json_empty_args (fun _ => none) demo_tool_map tc_unknown rfl
  ⟨thm.1, thm.2 "Unknown tool: absent" rfl⟩

/-- The agent state after one turn's backend call: usage tracked and the
assistant message appended (the state run_loop hands to the tool-call
execution and the next iteration). -/
def turn_state (st : Agent) (resp : BackendResponse) : Agent :=
  { track_usage st resp with
    messages := (track_usage st resp).messages ++ [assistant_message_of resp] }

@[simp] theorem turn_state_max_iterations (st : Agent) (resp : BackendResponse) :
    (turn_state st resp).max_iterations = st.max_iterations := by
  simp [turn_state]

@[simp] theorem turn_state_messages_length (st : Agent) (resp : BackendResponse) :
    (turn_state st resp).messages.length = st.messages.length + 1 := by
  simp [turn_state]

@[simp] theorem turn_state_total_usage (st : Agent) (resp : BackendResponse) :
    (turn_state st resp).total_usage = step_usage st.total_usage resp.usage := by
  simp [turn_state]

@[simp] theorem turn_state_tool_map (st : Agent) (resp : BackendResponse) :
    (turn_state st resp).tool_map = st.tool_map := by
  simp [turn_state]

theorem range_shift_sum (f : Nat → Nat) (n k : Nat) :
    ((List.range (n + 1)).map (fun j => f (k + j))).sum =
      f k + ((List.range n).map (fun j => f (k + 1 + j))).sum := by
  rw [List.range_succ_eq_map, List.map_cons, List.map_map, List.sum_cons, Nat.add_zero]
  congr 1
  apply congrArg List.sum
  apply List.map_congr_left
  intro j _
  show f (k + (j + 1)) = f (k + 1 + j)
  congr 1
  omega

theorem range_shift_accum (g : Nat → Option Usage) (n k : Nat) (u : Usage) :
    accum_usage u ((List.range (n + 1)).map (fun j => g (k + j))) =
      accum_usage (step_usage u (g k)) ((List.range n).map (fun j => g (k + 1 + j))) := by
  rw [List.range_succ_eq_map, List.map_cons, List.map_map, accum_usage, Nat.add_zero]
  congr 1
  apply List.map_congr_left
  intro j _
  show g (k + (j + 1)) = g (k + 1 + j)
  congr 1
  omega

/-- When the backend never signals termination, the loop runs out of
fuel: the response is the max-iteration response, having made one
backend call per remaining iteration and accumulated every turn's
messages, invocation records, and usage. -/
theorem run_loop_never_stop (bk : Backend) (parse : ArgParser) (order : Nat → List Nat)
    (h : ∀ i, (bk i).finish_reason ≠ "stop" ∧ (bk i).tool_calls ≠ []) :
    ∀ (fuel : Nat) (st : Agent) (made : List MadeCall) (iteration : Nat),
      (Agent.run_loop bk parse order fuel st made iteration).1.success = false ∧
      (Agent.run_loop bk parse order fuel st made iteration).1.error =
        some ("Max iterations (" ++ toString st.max_iterations ++ ") reached") ∧
      (Agent.run_loop bk parse order fuel st made iteration).1.iterations = iteration + fuel ∧
      (Agent.run_loop bk parse order fuel st made iteration).1.tool_calls.length =
        made.length +
          ((List.range fuel).map (fun j => (bk (iteration + j)).tool_calls.length)).sum ∧
      (Agent.run_loop bk parse order fuel st made iteration).1.messages.length =
        st.messages.length + fuel +
          ((List.range fuel).map (fun j => (bk (iteration + j)).tool_calls.length)).sum ∧
      (Agent.run_loop bk parse order fuel st made iteration).1.usage =
        accum_usage st.total_usage
          ((List.range fuel).map (fun j => (bk (iteration + j)).usage)) := by
  intro fuel
  induction fuel with
  | zero =>
      intro st made iteration
      simp [Agent.run_loop, max_iter_response, accum_usage]
  | succ n ih =>
      intro st made iteration
      rcases h iteration with ⟨h1, h2⟩
      have hcond : ¬((bk iteration).finish_reason = "stop" ∨ (bk iteration).tool_calls = []) := by
        push_neg
        exact ⟨h1, h2⟩
      have heq : Agent.run_loop bk parse order (n + 1) st made iteration =
          Agent.run_loop bk parse order n
            (Agent.execute_tool_calls parse (order iteration) (turn_state st (bk iteration))
              (bk iteration).tool_calls made).1
            (Agent.execute_tool_calls parse (order iteration) (turn_state st (bk iteration))
              (bk iteration).tool_calls made).2
            (iteration + 1) := by
        conv_lhs => rw [Agent.run_loop]
        rw [if_neg hcond]
        rfl
      rw [heq]
      obtain ⟨i1, i2, i3, i4, i5, i6⟩ :=
        ih (Agent.execute_tool_calls parse (order iteration) (turn_state st (bk iteration))
            (bk iteration).tool_calls made).1
          (Agent.execute_tool_calls parse (order iteration) (turn_state st (bk iteration))
            (bk iteration).tool_calls made).2
          (iteration + 1)
      refine ⟨i1, ?_, ?_, ?_, ?_, ?_⟩
      · rw [i2]
        simp
      · rw [i3]
        omega
      · rw [i4]
        simp only [execute_tool_calls_snd_length]
        rw [range_shift_sum (fun j => (bk j).tool_calls.length) n iteration]
        omega
      · rw [i5]
        simp only [execute_tool_calls_fst_messages_length, turn_state_messages_length]
        rw [range_shift_sum (fun j => (bk j).tool_calls.length) n iteration]
        omega
      · rw [i6]
        simp only [execute_tool_calls_fst_total_usage, turn_state_total_usage]
        rw [range_shift_accum (fun j => (bk j).usage) n iteration]

/-- C1: if the backend on every turn requests at least one tool call and
never reports finish reason "stop", `run` terminates after exactly
`max_iterations` backend calls with `success=false` and the error string
"Max iterations (<N>) reached", still returning the transcript (two
seeded entries plus one assistant entry and one tool entry per requested
call for every iteration), the record of all tool invocations made, the
iteration count, and the usage accumulated over every backend call. -/
theorem agent_run_max_iterations (bk : Backend) (parse : ArgParser) (order : Nat → List Nat)
    (st : Agent) (task : String)
    (h : ∀ i, (bk i).finish_reason ≠ "stop" ∧ (bk i).tool_calls ≠ []) :
    (Agent.run bk parse order st task).1.success = false ∧
    (Agent.run bk parse order st task).1.error =
      some ("Max iterations (" ++ toString st.max_iterations ++ ") reached") ∧
    (Agent.run bk parse order st task).1.iterations = st.max_iterations ∧
    (Agent.run bk parse order st task).1.tool_calls.length =
      ((List.range st.max_iterations).map (fun i => (bk i).tool_calls.length)).sum ∧
    (Agent.run bk parse order st task).1.messages.length =
      2 + st.max_iterations +
        ((List.range st.max_iterations).map (fun i => (bk i).tool_calls.length)).sum ∧
    (Agent.run bk parse order st task).1.usage =
      accum_usage st.total_usage
        ((List.range st.max_iterations).map (fun i => (bk i).usage)) := by
  obtain ⟨i1, i2, i3, i4, i5, i6⟩ := run_loop_never_stop bk parse order h st.max_iterations
    { st with messages := [Message.system st.system_message, Message.user task] } [] 0
  have hrun : Agent.run bk parse order st task =
      Agent.run_loop bk parse order st.max_iterations
        { st with messages := [Message.system st.system_message, Message.user task] } [] 0 := rfl
  rw [hrun]
  refine ⟨i1, ?_, ?_, ?_, ?_, ?_⟩
  · exact i2
  · rw [i3]
    omega
  · rw [i4]
    simp
  · rw [i5]
    simp
  · rw [i6]
    simp

def bk_always_tools : Backend := fun _ =>
  { content := none
    tool_calls := [{ id := "call_1", ctype := "function", name := "fine", arguments := "\x7b\x7d" }]
    finish_reason := "tool_calls"
    usage := some { prompt_tokens := 10, completion_tokens := 5, total_tokens := 15 } }

def st_bounded : Agent :=
  Agent.init "Bounded" "You are a bounded agent." "gpt-4o" none 2 "auto" true demo_tool_map

/-- Witness for C1 at a backend stub that always requests a tool call
and an agent with an iteration bound of 2. -/
theorem agent_run_max_iterations_witness :
    (Agent.run bk_always_tools (fun _ => none) (fun _ => [0]) st_bounded "task").1.success = false ∧
    (Agent.run bk_always_tools (fun _ => none) (fun _ => [0]) st_bounded "task").1.error =
      some ("Max iterations (" ++ toString st_bounded.max_iterations ++ ") reached") ∧
    (Agent.run bk_always_tools (fun _ => none) (fun _ => [0]) st_bounded "task").1.iterations =
      st_bounded.max_iterations ∧
    (Agent.run bk_always_tools (fun _ => none) (fun _ => [0]) st_bounded "task").1.tool_calls.length =
      ((List.range st_bounded.max_iterations).map
        (fun i => (bk_always_tools i).tool_calls.length)).sum ∧
    (Agent.run bk_always_tools (fun _ => none) (fun _ => [0]) st_bounded "task").1.messages.length =
      2 + st_bounded.max_iterations +
        ((List.range st_bounded.max_iterations).map
          (fun i => (bk_always_tools i).tool_calls.length)).sum ∧
    (Agent.run bk_always_tools (fun _ => none) (fun _ => [0]) st_bounded "task").1.usage =
      accum_usage st_bounded.total_usage
        ((List.range st_bounded.max_iterations).map (fun i => (bk_always_tools i).usage)) :=
  agent_run_max_iterations bk_always_tools (fun _ => none) (fun _ => [0]) st_bounded "task"
    (by intro i; constructor <;> simp [bk_always_tools])

theorem usage_le_step (u : Usage) (x : Option Usage) : usage_le u (step_usage u x) := by
  cases x
  · exact usage_le_refl u
  · exact usage_le_add u _

/-- The transcript only grows across loop iterations. -/
theorem run_loop_messages_le (bk : Backend) (parse : ArgParser) (order : Nat → List Nat) :
    ∀ (fuel : Nat) (st : Agent) (made : List MadeCall) (iteration : Nat),
      st.messages.length ≤
        (Agent.run_loop bk parse order fuel st made iteration).2.messages.length := by
  intro fuel
  induction fuel with
  | zero =>
      intro st made iteration
      exact Nat.le_refl _
  | succ n ih =>
      intro st made iteration
      by_cases hc : (bk iteration).finish_reason = "stop" ∨ (bk iteration).tool_calls = []
      · have heq : (Agent.run_loop bk parse order (n + 1) st made iteration).2 =
            turn_state st (bk iteration) := by
          conv_lhs => rw [Agent.run_loop]
          rw [if_pos hc]
          rfl
        rw [heq, turn_state_messages_length]
        omega
      · have heq : Agent.run_loop bk parse order (n + 1) st made iteration =
            Agent.run_loop bk parse order n
              (Agent.execute_tool_calls parse (order iteration) (turn_state st (bk iteration))
                (bk iteration).tool_calls made).1
              (Agent.execute_tool_calls parse (order iteration) (turn_state st (bk iteration))
                (bk iteration).tool_calls made).2
              (iteration + 1) := by
          conv_lhs => rw [Agent.run_loop]
          rw [if_neg hc]
          rfl
        rw [heq]
        have hstep := ih (Agent.execute_tool_calls parse (order iteration)
            (turn_state st (bk iteration)) (bk iteration).tool_calls made).1
          (Agent.execute_tool_calls parse (order iteration) (turn_state st (bk iteration))
            (bk iteration).tool_calls made).2
          (iteration + 1)
        have hgrow : st.messages.length ≤
            (Agent.execute_tool_calls parse (order iteration) (turn_state st (bk iteration))
              (bk iteration).tool_calls made).1.messages.length := by
          rw [execute_tool_calls_fst_messages_length, turn_state_messages_length]
          omega
        exact Nat.le_trans hgrow hstep

/-- With at least one iteration of fuel, the loop strictly grows the
transcript (the first backend call's assistant message is appended
before any exit). -/
theorem run_loop_messages_lt (bk : Backend) (parse : ArgParser) (order : Nat → List Nat)
    (fuel : Nat) (st : Agent) (made : List MadeCall) (iteration : Nat) :
    st.messages.length <
      (Agent.run_loop bk parse order (fuel + 1) st made iteration).2.messages.length := by
  by_cases hc : (bk iteration).finish_reason = "stop" ∨ (bk iteration).tool_calls = []
  · have heq : (Agent.run_loop bk parse order (fuel + 1) st made iteration).2 =
        turn_state st (bk iteration) := by
      conv_lhs => rw [Agent.run_loop]
      rw [if_pos hc]
      rfl
    rw [heq, turn_state_messages_length]
    omega
  · have heq : Agent.run_loop bk parse order (fuel + 1) st made iteration =
        Agent.run_loop bk parse order fuel
          (Agent.execute_tool_calls parse (order iteration) (turn_state st (bk iteration))
            (bk iteration).tool_calls made).1
          (Agent.execute_tool_calls parse (order iteration) (turn_state st (bk iteration))
            (bk iteration).tool_calls made).2
          (iteration + 1) := by
      conv_lhs => rw [Agent.run_loop]
      rw [if_neg hc]
      rfl
    rw [heq]
    have hstep := run_loop_messages_le bk parse order fuel
      (Agent.execute_tool_calls parse (order iteration) (turn_state st (bk iteration))
        (bk iteration).tool_calls made).1
      (Agent.execute_tool_calls parse (order iteration) (turn_state st (bk iteration))
        (bk iteration).tool_calls made).2
      (iteration + 1)
    have hgrow : st.messages.length <
        (Agent.execute_tool_calls parse (order iteration) (turn_state st (bk iteration))
          (bk iteration).tool_calls made).1.messages.length := by
      rw [execute_tool_calls_fst_messages_length, turn_state_messages_length]
      omega
    exact Nat.lt_of_lt_of_le hgrow hstep

/-- Usage counters only grow across loop iterations. -/
theorem run_loop_usage_le (bk : Backend) (parse : ArgParser) (order : Nat → List Nat) :
    ∀ (fuel : Nat) (st : Agent) (made : List MadeCall) (iteration : Nat),
      usage_le st.total_usage
        (Agent.run_loop bk parse order fuel st made iteration).2.total_usage := by
  intro fuel
  induction fuel with
  | zero =>
      intro st made iteration
      exact usage_le_refl _
  | succ n ih =>
      intro st made iteration
      by_cases hc : (bk iteration).finish_reason = "stop" ∨ (bk iteration).tool_calls = []
      · have heq : (Agent.run_loop bk parse order (n + 1) st made iteration).2 =
            turn_state st (bk iteration) := by
          conv_lhs => rw [Agent.run_loop]
          rw [if_pos hc]
          rfl
        rw [heq, turn_state_total_usage]
        exact usage_le_step _ _
      · have heq : Agent.run_loop bk parse order (n + 1) st made iteration =
            Agent.run_loop bk parse order n
              (Agent.execute_tool_calls parse (order iteration) (turn_state st (bk iteration))
                (bk iteration).tool_calls made).1
              (Agent.execute_tool_calls parse (order iteration) (turn_state st (bk iteration))
                (bk iteration).tool_calls made).2
              (iteration + 1) := by
          conv_lhs => rw [Agent.run_loop]
          rw [if_neg hc]
          rfl
        rw [heq]
        have hstep := ih (Agent.execute_tool_calls parse (order iteration)
            (turn_state st (bk iteration)) (bk iteration).tool_calls made).1
          (Agent.execute_tool_calls parse (order iteration) (turn_state st (bk iteration))
            (bk iteration).tool_calls made).2
          (iteration + 1)
        have hgrow : usage_le st.total_usage
            (Agent.execute_tool_calls parse (order iteration) (turn_state st (bk iteration))
              (bk iteration).tool_calls made).1.total_usage := by
          rw [execute_tool_calls_fst_total_usage, turn_state_total_usage]
          exact usage_le_step _ _
        exact usage_le_trans hgrow hstep

def bk_stop : Backend := fun _ =>
  { content := some "done", tool_calls := [], finish_reason := "stop", usage := none }

def parent_five : Agent :=
  { Agent.init "P" "sys" "gpt-4o" none 4 "auto" true [] with
    messages := [.system "sys", .user "a", .assistant (some "x") [],
                 .user "b", .assistant (some "y") []] }

/-- C3 counterexample: a parent with K = 5 transcript entries, forked and
run against a backend that stops immediately, leaves the fork with 3
entries (run resets the transcript to system and user before looping),
which does not exceed K.  The claim that the fork's entry count exceeds
K is false as stated. -/
theorem fork_entry_count_counterexample :
    parent_five.messages.length = 5 ∧
    (Agent.run bk_stop (fun _ => none) (fun _ => []) (Agent.fork parent_five) "t").2.messages.length = 3 ∧
    ¬(parent_five.messages.length <
        (Agent.run bk_stop (fun _ => none) (fun _ => []) (Agent.fork parent_five) "t").2.messages.length) := by
  refine ⟨rfl, ?_, ?_⟩ <;> decide

/-- C3 (amended): after `fork()`, the fork's transcript equals the
parent's K entries and the parent is a distinct value the fork's run
never touches; running the fork first resets its transcript to (system,
user), so with at least one iteration of fuel the fork ends with at
least 3 entries — exceeding K only when K ≤ 2 — and the run's outcome is
entirely independent of the parent's transcript content. -/
theorem fork_transcript_independence (st : Agent) (bk : Backend) (parse : ArgParser)
    (order : Nat → List Nat) (task : String) (h : 1 ≤ st.max_iterations) :
    (Agent.fork st).messages = st.messages ∧
    (Agent.fork st).total_usage =
      { prompt_tokens := 0, completion_tokens := 0, total_tokens := 0 } ∧
    3 ≤ (Agent.run bk parse order (Agent.fork st) task).2.messages.length ∧
    (st.messages.length ≤ 2 →
      st.messages.length < (Agent.run bk parse order (Agent.fork st) task).2.messages.length) ∧
    (∀ other : List Message,
      Agent.run bk parse order (Agent.fork { st with messages := other }) task =
        Agent.run bk parse order (Agent.fork st) task) := by
  obtain ⟨m, hm⟩ : ∃ m, st.max_iterations = m + 1 := ⟨st.max_iterations - 1, by omega⟩
  have key : 2 < (Agent.run bk parse order (Agent.fork st) task).2.messages.length := by
    have h2 : Agent.run bk parse order (Agent.fork st) task =
        Agent.run_loop bk parse order (Agent.fork st).max_iterations
          { Agent.fork st with
            messages := [Message.system (Agent.fork st).system_message, Message.user task] }
          [] 0 := rfl
    have hmi : (Agent.fork st).max_iterations = st.max_iterations := rfl
    rw [h2, hmi, hm]
    have hlt := run_loop_messages_lt bk parse order m
      { Agent.fork st with
        messages := [Message.system (Agent.fork st).system_message, Message.user task] }
      [] 0
    simpa using hlt
  refine ⟨rfl, rfl, by omega, by omega, ?_⟩
  intro other
  rfl

/-- Witness for C3 (amended) at the concrete five-entry parent. -/
theorem fork_transcript_independence_witness :
    (Agent.fork parent_five).messages = parent_five.messages ∧
    (Agent.fork parent_five).total_usage =
      { prompt_tokens := 0, completion_tokens := 0, total_tokens := 0 } ∧
    3 ≤ (Agent.run bk_stop (fun _ => none) (fun _ => []) (Agent.fork parent_five) "t").2.messages.length ∧
    (parent_five.messages.length ≤ 2 →
      parent_five.messages.length <
        (Agent.run bk_stop (fun _ => none) (fun _ => []) (Agent.fork parent_five) "t").2.messages.length) ∧
    Agent.run bk_stop (fun _ => none) (fun _ => []) (Agent.fork { parent_five with messages := [] }) "t" =
      Agent.run bk_stop (fun _ => none) (fun _ => []) (Agent.fork parent_five) "t" :=
  have thm := fork_transcript_independence parent_five bk_stop (fun _ => none) (fun _ => [])
    "t" (by decide)
  ⟨thm.1, thm.2.1, thm.2.2.1, thm.2.2.2.1, thm.2.2.2.2 []⟩

theorem apply_op_usage_le (st : Agent) (op : AgentOp) :
    usage_le st.total_usage (apply_op st op).total_usage := by
  cases op with
  | op_reset => exact usage_le_refl _
  | op_add_user_message c => exact usage_le_refl _
  | op_backend_call resp =>
      have h : (apply_op st (.op_backend_call resp)).total_usage =
          step_usage st.total_usage resp.usage := track_usage_total st resp
      rw [h]
      exact usage_le_step _ _
  | op_run bk parse order task =>
      exact run_loop_usage_le bk parse order
        ({ st with messages := [Message.system st.system_message, Message.user task] }).max_iterations
        { st with messages := [Message.system st.system_message, Message.user task] } [] 0

theorem apply_ops_usage_le : ∀ (ops : List AgentOp) (st : Agent),
    usage_le st.total_usage (apply_ops st ops).total_usage := by
  intro ops
  induction ops with
  | nil => intro st; exact usage_le_refl _
  | cons op rest ih =>
      intro st
      exact usage_le_trans (apply_op_usage_le st op) (ih (apply_op st op))

/-- C8: each usage counter is monotonically non-decreasing over the
agent's lifetime: a successful backend call reporting usage increments
each counter by the reported amount, `reset` clears only the transcript
and never the counters, no sequence of operations (resets, user
messages, backend calls, whole runs) ever decreases them, and only
constructing a new `Agent` yields zeroed counters. -/
theorem usage_counters_monotone :
    (∀ (st : Agent) (resp : BackendResponse) (u : Usage), resp.usage = some u →
        (track_usage st resp).total_usage = add_usage st.total_usage u) ∧
    (∀ st : Agent, (Agent.reset st).total_usage = st.total_usage) ∧
    (∀ st : Agent, (Agent.reset st).messages = []) ∧
    (∀ (st : Agent) (ops : List AgentOp),
        usage_le st.total_usage (apply_ops st ops).total_usage) ∧
    (∀ (name system_message model : String) (max_tokens : Option Nat) (max_iterations : Nat)
        (tool_choice : String) (truncate : Bool) (tool_map : List (String × ToolFn)),
        (Agent.init name system_message model max_tokens max_iterations tool_choice truncate
            tool_map).total_usage =
          { prompt_tokens := 0, completion_tokens := 0, total_tokens := 0 }) := by
  refine ⟨?_, ?_, ?_, ?_, ?_⟩
  · intro st resp u hu
    simp [track_usage, hu]
  · intro st
    rfl
  · intro st
    rfl
  · intro st ops
    exact apply_ops_usage_le ops st
  · intro name system_message model max_tokens max_iterations tool_choice truncate tool_map
    rfl

def resp_with_usage : BackendResponse :=
  { content := none
    tool_calls := []
    finish_reason := "stop"
    usage := some { prompt_tokens := 1, completion_tokens := 2, total_tokens := 3 } }

/-- Witness for C8 at concrete states and a concrete operation trace. -/
theorem usage_counters_monotone_witness :
    (track_usage st_bounded resp_with_usage).total_usage =
      add_usage st_bounded.total_usage
        { prompt_tokens := 1, completion_tokens := 2, total_tokens := 3 } ∧
    (Agent.reset st_bounded).total_usage = st_bounded.total_usage ∧
    (Agent.reset st_bounded).messages = [] ∧
    usage_le st_bounded.total_usage
      (apply_ops st_bounded
        [.op_backend_call resp_with_usage, .op_reset,
          .op_run bk_stop (fun _ => none) (fun _ => []) "t"]).total_usage ∧
    (Agent.init "N" "sys" "gpt-4o" none 1 "auto" true []).total_usage =
      { prompt_tokens := 0, completion_tokens := 0, total_tokens := 0 } :=
  ⟨usage_counters_monotone.1 st_bounded _ _ rfl,
   usage_counters_monotone.2.1 st_bounded,
   usage_counters_monotone.2.2.1 st_bounded,
   usage_counters_monotone.2.2.2.1 st_bounded _,
   usage_counters_monotone.2.2.2.2 "N" "sys" "gpt-4o" none 1 "auto" true []⟩

theorem dict_get_double_filter_none {α : Type} (l : List (String × α))
    (keep outer : String × α → Bool) (k : String)
    (h : ∀ v : α, keep (k, v) = false) :
    dict_get ((l.filter keep).filter outer) k = none := by
  simp only [dict_get, Option.map_eq_none', List.find?_eq_none]
  intro x hx
  obtain ⟨hx1, _⟩ := List.mem_filter.mp hx
  obtain ⟨_, hkeep⟩ := List.mem_filter.mp hx1
  intro hbeq
  obtain ⟨x1, x2⟩ := x
  have hx1k : x1 = k := by simpa using hbeq
  rw [hx1k] at hkeep
  rw [h x2] at hkeep
  exact Bool.false_ne_true hkeep

theorem dict_get_filter_ne_none {α : Type} (l : List (String × α)) (c : String) :
    dict_get (l.filter (fun p => p.1 != c)) c = none := by
  simp only [dict_get, Option.map_eq_none', List.find?_eq_none]
  intro x hx
  obtain ⟨_, hkeep⟩ := List.mem_filter.mp hx
  intro hbeq
  have : x.1 = c := by simpa using hbeq
  simp [this] at hkeep

/-- C9: the memory holds at most one active slot-filling session:
adding a parameter for a capability different from the active session's
starts a fresh session holding only the new argument and the prior
session's partial arguments are discarded (`get_collected_params` for
the old capability returns the empty map); clearing the active
capability's parameters destroys the session and removes every stored
fact whose key is tied to that capability name, including the
`current_tool` marker. -/
theorem memory_single_session :
    (∀ (m : Memory) (ps : ToolParameterStore) (t1 t2 p : String) (v : PyVal),
        m.parameter_store = some ps → ps.tool_name = t1 → t1 ≠ t2 →
        (m.add_param t2 p v).parameter_store =
          some { tool_name := t2, parameters := [(p, { name := p, value := v })] } ∧
        (m.add_param t2 p v).get_collected_params t1 = []) ∧
    (∀ (m : Memory) (ps : ToolParameterStore) (t : String),
        m.parameter_store = some ps → ps.tool_name = t →
        m.get_fact "current_tool" = some t →
        (m.clear_collected_params t).parameter_store = none ∧
        (m.clear_collected_params t).get_collected_params t = [] ∧
        (∀ k, py_startswith k t = true →
          (m.clear_collected_params t).get_fact k = none) ∧
        (m.clear_collected_params t).get_fact "current_tool" = none) := by
  constructor
  · intro m ps t1 t2 p v hps ht1 hne
    have hbne : (ps.tool_name != t2) = true := by
      rw [ht1]
      simpa using hne
    have hstep : m.add_param t2 p v =
        ({ (m.start_collecting_params t2) with
            parameter_store := some (ToolParameterStore.add_parameter
              { tool_name := t2, parameters := [] } p v) }).add_fact
          (t2 ++ "_" ++ p) (py_str v) := by
      simp only [Memory.add_param, hps, hbne, if_true]
      rfl
    rw [hstep]
    constructor
    · simp [Memory.add_fact, Memory.start_collecting_params, ToolParameterStore.add_parameter,
        dict_set]
    · have hne' : t2 ≠ t1 := fun hc => hne hc.symm
      simp [Memory.add_fact, Memory.start_collecting_params, Memory.get_collected_params,
        ToolParameterStore.add_parameter, dict_set, hne']
  · intro m ps t hps ht hcur
    have hclear : m.clear_collected_params t =
        { m with
          parameter_store := none
          facts := (m.facts.filter (fun p => !(py_startswith p.1 t))).filter
            (fun p => p.1 != "current_tool") } := by
      simp only [Memory.clear_collected_params, hps, ht, if_pos rfl]
      have hcur1 : ({ m with parameter_store := none } : Memory).get_fact "current_tool" =
          some t := hcur
      rw [hcur1]
      simp
    rw [hclear]
    refine ⟨rfl, rfl, ?_, ?_⟩
    · intro k hk
      apply dict_get_double_filter_none
      intro v
      simp only [Bool.not_eq_true']
      simpa using hk
    · exact dict_get_filter_ne_none _ _

def mem_demo : Memory := Memory.empty.add_param "set_reminder" "task" (.pstr "buy milk")

def demo_store : ToolParameterStore :=
  { tool_name := "set_reminder"
    parameters := [("task", { name := "task", value := .pstr "buy milk" })] }

/-- Witness for C9 at a concrete memory with an active `set_reminder`
session. -/
theorem memory_single_session_witness :
    (mem_demo.add_param "send_email" "to" (.pstr "bob")).parameter_store =
      some { tool_name := "send_email",
             parameters := [("to", { name := "to", value := .pstr "bob" })] } ∧
    (mem_demo.add_param "send_email" "to" (.pstr "bob")).get_collected_params "set_reminder" = [] ∧
    (mem_demo.clear_collected_params "set_reminder").parameter_store = none ∧
    (mem_demo.clear_collected_params "set_reminder").get_collected_params "set_reminder" = [] ∧
    (mem_demo.clear_collected_params "set_reminder").get_fact "set_reminder_task" = none ∧
    (mem_demo.clear_collected_params "set_reminder").get_fact "current_tool" = none :=
  have hA := memory_single_session.1 mem_demo demo_store "set_reminder" "send_email" "to"
    (.pstr "bob") rfl rfl (by decide)
  have hB := memory_single_session.2 mem_demo demo_store "set_reminder" rfl rfl rfl
  ⟨hA.1, hA.2, hB.1, hB.2.1, hB.2.2.1 "set_reminder_task" rfl, hB.2.2.2⟩
